import Mathlib

set_option autoImplicit false

/-!
Shallow embedding of the womba RAG context subsystem
(`src/ai/embedding_service.py`, `src/ai/rag_store.py`,
`src/ai/context_indexer.py`, `src/ai/rag_retriever.py`).

Python machine-level effects are made explicit: fallible external calls
(OpenAI embeddings, ChromaDB collection operations) are parameterized by
oracles returning `Except`, and `try/except` blocks become `match` on those
results, placed exactly where the source places them.
-/

namespace Womba

/-! ## Embedding vectors -/

/-- Embedding values are opaque outside similarity math; we model them as
integers.  The zero vector of the code's hard-wired dimension 1536
(`embedding_service.py` line 75: `[[0.0] * 1536] * len(batch)`). -/
abbrev Vec := List Int

def zeroVec : Vec := List.replicate 1536 0

/-- Consecutive slices `l[i : i+n]` for `i = 0, n, 2n, ...`, as produced by
`for i in range(0, len(l), n): batch = l[i:i+n]`. -/
def chunkList {α : Type} (n : Nat) (l : List α) : List (List α) :=
  if h : l.isEmpty ∨ n = 0 then []
  else l.take n :: chunkList n (l.drop n)
termination_by l.length
decreasing_by
  simp only [List.isEmpty_iff, not_or] at h
  have hl : l ≠ [] := h.1
  have hn : n ≠ 0 := h.2
  have : 0 < l.length := List.length_pos.mpr hl
  simp only [List.length_drop]
  omega

/-! ## EmbeddingService (`embedding_service.py`) -/

/-- The embedding provider: one OpenAI `embeddings.create` call for one batch
of at most 100 texts (`_embed_batch`).  `.error` models the call raising. -/
abbrev Provider := List String → Except Unit (List Vec)

/-- `EmbeddingService.embed_texts` (lines 44-78): empty input returns `[]`
immediately; otherwise the input is processed in batches of
`self.batch_size = 100`; a batch whose provider call raises contributes
`[[0.0] * 1536] * len(batch)` instead of propagating the exception. -/
def embed_texts (provider : Provider) (texts : List String) : List Vec :=
  if texts.isEmpty then []
  else
    (chunkList 100 texts).flatMap fun batch =>
      match provider batch with
      | .ok embs => embs
      | .error _ => List.replicate batch.length zeroVec

/-- The sequence of provider calls `embed_texts` makes: one per batch of the
loop (the loop body always reaches `_embed_batch`). -/
def embed_texts_calls (texts : List String) : List (List String) :=
  if texts.isEmpty then [] else chunkList 100 texts

/-- `EmbeddingService.embed_single` (lines 104-115):
`embeddings[0] if embeddings else [0.0] * 1536`. -/
def embed_single (provider : Provider) (text : String) : Vec :=
  match embed_texts provider [text] with
  | [] => List.replicate 1536 0
  | v :: _ => v

/-- A provider is well-behaved when a successful call returns exactly one
embedding per input text (guaranteed by the OpenAI embeddings API). -/
def ProviderExact (provider : Provider) : Prop :=
  ∀ b r, provider b = .ok r → r.length = b.length

/-! ## RAGVectorStore (`rag_store.py`) -/

/-- Flat metadata mapping (string keys, primitive values rendered as
strings). -/
abbrev Meta := List (String × String)

/-- A stored document record: text, metadata and embedding. -/
structure StoredDoc where
  text : String
  meta : Meta
  embedding : Vec
deriving DecidableEq, Repr

/-- A named collection: association of document ids to stored records. -/
abbrev Collection := List (String × StoredDoc)

/-- The store: collection name to collection.  An absent collection is the
empty one (ChromaDB's `get_or_create_collection` materializes it lazily). -/
abbrev Store := String → Collection

def emptyStore : Store := fun _ => []

/-- The four fixed collection names of `RAGVectorStore`. -/
def TEST_PLANS_COLLECTION : String := "test_plans"
def CONFLUENCE_DOCS_COLLECTION : String := "confluence_docs"
def JIRA_STORIES_COLLECTION : String := "jira_stories"
def EXISTING_TESTS_COLLECTION : String := "existing_tests"

/-- Modelled from the spec: the ChromaDB collection write for a single
`{id, text, metadata, embedding}` row.  ChromaDB itself is an external
dependency; the spec fixes its contract as "upserts ... (same id
overwrites)", so an existing id is replaced in place and a new id is
appended. -/
def colUpsert (c : Collection) (id : String) (d : StoredDoc) : Collection :=
  if c.any (fun p => p.1 = id) then
    c.map (fun p => if p.1 = id then (id, d) else p)
  else
    c ++ [(id, d)]

/-- The ids present in a collection. -/
def colIds (c : Collection) : List String := c.map Prod.fst

/-- Write a whole batch of rows (`collection.add` over parallel lists). -/
def colAddRows (c : Collection) (rows : List (String × StoredDoc)) : Collection :=
  rows.foldl (fun acc r => colUpsert acc r.1 r.2) c

/-- Update one collection of the store. -/
def storeSet (s : Store) (name : String) (c : Collection) : Store :=
  fun n => if n = name then c else s n

/-- Python-level exceptions that our model distinguishes. -/
inductive PyErr where
  | valueError
  | backendError
deriving DecidableEq, Repr

/-- Injectable failures of the external backend (ChromaDB client): whether
`get_or_create_collection`, `collection.add`, `collection.query` or
`collection.count` raise for a given collection name. -/
structure Backend where
  getCollFails : String → Bool
  addFails : String → Bool
  queryFails : String → Bool
  statsFails : String → Bool

/-- The backend on which every external call succeeds. -/
def okBackend : Backend :=
  { getCollFails := fun _ => false
    addFails := fun _ => false
    queryFails := fun _ => false
    statsFails := fun _ => false }

/-- The guard of `RAGVectorStore.add_documents` line 93, exactly as written:
`len(documents) != len(metadatas) != len(ids)` is a Python *chained*
comparison, i.e. `len(documents) != len(metadatas) and
len(metadatas) != len(ids)`. -/
def lengthGuardTriggers (nDocs nMetas nIds : Nat) : Bool :=
  nDocs ≠ nMetas && nMetas ≠ nIds

/-- The `{id, text, metadata, embedding}` rows `collection.add` receives:
ids zipped with documents, metadatas and the embeddings just generated. -/
def rowsFor (provider : Provider) (documents : List String)
    (metadatas : List Meta) (ids : List String) : List (String × StoredDoc) :=
  (ids.zip ((documents.zip metadatas).zip (embed_texts provider documents))).map
    (fun r => (r.1, StoredDoc.mk r.2.1.1 r.2.1.2 r.2.2))

/-- `RAGVectorStore.add_documents` (lines 73-115).  Returns the resulting
store (or the raised exception) together with the list of embedding-provider
calls the invocation made.  Steps, in source order: empty `documents` is a
no-op; the length guard may raise `ValueError`; embeddings are generated via
`embed_texts` (which itself never raises); `get_or_create_collection` and
`collection.add` may raise backend errors, which are logged and re-raised. -/
def add_documents (b : Backend) (provider : Provider) (store : Store)
    (collection_name : String) (documents : List String)
    (metadatas : List Meta) (ids : List String) :
    Except PyErr Store × List (List String) :=
  if documents.isEmpty then (.ok store, [])
  else if lengthGuardTriggers documents.length metadatas.length ids.length then
    (.error .valueError, [])
  else
    let calls := embed_texts_calls documents
    if b.getCollFails collection_name then (.error .backendError, calls)
    else if b.addFails collection_name then (.error .backendError, calls)
    else
      (.ok (storeSet store collection_name
        (colAddRows (store collection_name)
          (rowsFor provider documents metadatas ids))), calls)

/-- A retrieved row as formatted by `retrieve_similar`:
`{id, document, metadata, distance}`. -/
structure RetrievedDoc where
  id : String
  document : String
  metadata : Meta
  distance : Int
deriving DecidableEq, Repr

/-- Exact-match metadata filtering (`where=metadata_filter`): a row matches
when every filter entry appears verbatim in its metadata. -/
def metaMatches (filter : Meta) (m : Meta) : Bool :=
  filter.all (fun kv => m.lookup kv.1 = some kv.2)

def metaMatchesOpt (filter : Option Meta) (m : Meta) : Bool :=
  match filter with
  | none => true
  | some f => metaMatches f m

/-- Modelled from the spec: ChromaDB `collection.query` k-NN search, an
external dependency.  Per the spec it is "restricted to rows whose metadata
exactly matches `metadataFilter` when supplied, returns up to `topK`
results"; on an absent or empty collection it returns an empty result.  The
distance ordering itself is external cosine math and is not modelled: rows
are returned in collection order with an opaque distance of 0. -/
def knnQuery (c : Collection) (filter : Option Meta) (top_k : Nat) :
    List RetrievedDoc :=
  ((c.filter (fun p => metaMatchesOpt filter p.2.meta)).map
    (fun p => RetrievedDoc.mk p.1 p.2.text p.2.meta 0)).take top_k

/-- `RAGVectorStore.retrieve_similar` (lines 117-172): embeds the query
(never raises), then a failing `get_or_create_collection` returns `[]`
(lines 142-146), a failing `collection.query` returns `[]` (lines 170-172),
and otherwise the query result is formatted into `{id, document, metadata,
distance}` rows.  Total: no exception escapes. -/
def retrieve_similar (b : Backend) (provider : Provider) (store : Store)
    (collection_name : String) (query_text : String) (top_k : Nat)
    (metadata_filter : Option Meta) : List RetrievedDoc :=
  let _query_embedding := embed_single provider query_text
  if b.getCollFails collection_name then []
  else if b.queryFails collection_name then []
  else knnQuery (store collection_name) metadata_filter top_k

/-- `RAGVectorStore.get_collection_stats` (lines 174-200): the count of a
collection, with any backend failure caught and reported as count 0
(`exists: False`). -/
def get_collection_stats_count (b : Backend) (store : Store)
    (collection_name : String) : Nat :=
  if b.statsFails collection_name then 0 else (store collection_name).length

/-! ## Dates and string helpers -/

/-- A wall-clock instant (`datetime.now()`), to second precision. -/
structure DateTime where
  year : Nat
  month : Nat
  day : Nat
  hour : Nat
  minute : Nat
  second : Nat
deriving DecidableEq, Repr

/-- A plausible calendar date with a four-digit year. -/
def DateTime.valid (t : DateTime) : Prop :=
  t.year ≤ 9999 ∧ 1 ≤ t.month ∧ t.month ≤ 12 ∧ 1 ≤ t.day ∧ t.day ≤ 31

instance (t : DateTime) : Decidable t.valid := by
  unfold DateTime.valid; infer_instance

/-- Two instants on the same calendar day. -/
def DateTime.sameDay (t u : DateTime) : Prop :=
  t.year = u.year ∧ t.month = u.month ∧ t.day = u.day

instance (t u : DateTime) : Decidable (t.sameDay u) := by
  unfold DateTime.sameDay; infer_instance

def digitChar (k : Nat) : Char := Char.ofNat (48 + k)

/-- Zero-padded two-digit decimal rendering (`%m`, `%d`, `%H`, `%M`, `%S`). -/
def pad2 (n : Nat) : List Char := [digitChar (n / 10 % 10), digitChar (n % 10)]

/-- Zero-padded four-digit decimal rendering (`%Y`, for years up to 9999). -/
def pad4 (n : Nat) : List Char :=
  [digitChar (n / 1000 % 10), digitChar (n / 100 % 10),
   digitChar (n / 10 % 10), digitChar (n % 10)]

/-- Modelled from the spec: `datetime.strftime('%Y%m%d')` of the external
`datetime` library — the calendar date rendered as eight digits, with no
time-of-day component (day granularity).  Faithful for years up to 9999. -/
def fmtYYYYMMDD (t : DateTime) : String :=
  String.mk (pad4 t.year ++ pad2 t.month ++ pad2 t.day)

/-- Modelled from the spec: `datetime.strftime('%Y%m%d_%H%M%S')` (used for
timestamp-suffixed test-plan ids). -/
def fmtYYYYMMDD_HHMMSS (t : DateTime) : String :=
  String.mk (pad4 t.year ++ pad2 t.month ++ pad2 t.day ++ [Char.ofNat 95]
    ++ pad2 t.hour ++ pad2 t.minute ++ pad2 t.second)

/-- Modelled from the spec: `datetime.isoformat()` of the external `datetime`
library (metadata timestamp payload; no claim inspects its content). -/
def isoformat (t : DateTime) : String :=
  String.mk (pad4 t.year ++ [Char.ofNat 45] ++ pad2 t.month ++ [Char.ofNat 45]
    ++ pad2 t.day ++ [Char.ofNat 84] ++ pad2 t.hour ++ [Char.ofNat 58]
    ++ pad2 t.minute ++ [Char.ofNat 58] ++ pad2 t.second)

/-- Python truthiness of an optional string: `None` and `''` are falsy. -/
def pyStrTruthy : Option String → Bool
  | none => false
  | some s => !(s == "")

/-- `a or b` for `a : Optional[str]`: `b` when `a` is `None` or empty. -/
def pyOrStr (a : Option String) (b : String) : String :=
  match a with
  | none => b
  | some s => if s == "" then b else s

/-- `key.split('-')[0]`: the prefix of `key` before the first `'-'` (the
whole string when there is none). -/
def keyPrefix (key : String) : String :=
  String.mk (key.data.takeWhile (fun c => c ≠ '-'))

/-! ## Domain records (external collaborators' shapes, `src/models`) -/

/-- `JiraStory` (`models/story.py`), restricted to the fields the indexer and
retriever read. -/
structure JiraStoryM where
  key : String
  summary : String
  description : Option String
  issue_type : String
  status : String
  components : List String
  acceptance_criteria : Option String
deriving DecidableEq, Repr

/-- One test case of a generated plan (`models/test_case.py`), restricted to
the fields `_build_test_plan_document` reads; `steps` keeps each step's
`action` string. -/
structure TestCaseM where
  title : String
  test_type : String
  priority : String
  description : String
  steps : List String
deriving DecidableEq, Repr

/-- `TestPlan` (`models/test_plan.py`), restricted to the fields
`index_test_plan` reads. -/
structure TestPlanM where
  story : JiraStoryM
  summary : String
  test_cases : List TestCaseM
  ai_model : String
deriving DecidableEq, Repr

/-- A Confluence document dict; `none` models an absent key (so that
`dict.get` defaults apply). -/
structure ConfDocM where
  id : Option String
  title : Option String
  content : Option String
  space : Option String
  url : Option String
deriving DecidableEq, Repr

/-- A Zephyr field that is either a plain string or a `{'name': ...}` dict
(`index_existing_tests` lines 310-316 normalize the dict case). -/
inductive PyVal where
  | str (s : String)
  | dict (name : String)
deriving DecidableEq, Repr

def PyVal.normalize : PyVal → String
  | .str s => s
  | .dict n => n

/-- An existing Zephyr test-case dict, restricted to the keys
`index_existing_tests` reads. -/
structure TestRecM where
  key : Option String
  name : Option String
  objective : Option String
  precondition : Option String
  status : Option PyVal
  priority : Option PyVal
deriving DecidableEq, Repr

/-! ## ContextIndexer (`context_indexer.py`) -/

/-- `ContextIndexer._build_test_plan_document` (lines 75-104). -/
def testPlanDocText (p : TestPlanM) : String :=
  let caseSections : List String :=
    ((p.test_cases.take 10).enumFrom 1).flatMap fun ti =>
      let i := ti.1
      let tc := ti.2
      ["\n" ++ toString i ++ ". " ++ tc.title,
       "   Type: " ++ tc.test_type ++ ", Priority: " ++ tc.priority,
       "   Description: " ++ tc.description.take 200] ++
      (match tc.steps with
       | [] => []
       | a :: _ =>
         ["   Steps: " ++ toString tc.steps.length ++ " steps",
          "   Example: " ++ a.take 100])
  String.intercalate "\n"
    (["Story: " ++ p.story.key ++ " - " ++ p.story.summary,
      "Components: " ++ String.intercalate ", " p.story.components,
      "\nSummary: " ++ p.summary,
      "\n" ++ toString p.test_cases.length ++ " Test Cases:"] ++ caseSections)

/-- Metadata built by `index_test_plan` (lines 48-56). -/
def testPlanMeta (p : TestPlanM) (now : DateTime) : Meta :=
  [("story_key", p.story.key),
   ("project_key", keyPrefix p.story.key),
   ("summary", p.story.summary.take 200),
   ("components", String.intercalate "," p.story.components),
   ("test_count", toString p.test_cases.length),
   ("timestamp", isoformat now),
   ("ai_model", p.ai_model)]

/-- Id built by `index_test_plan` (line 59):
`f"testplan_{key}_{now:%Y%m%d_%H%M%S}"` — timestamp-suffixed, so repeated
plans accumulate. -/
def testPlanDocId (p : TestPlanM) (now : DateTime) : String :=
  "testplan_" ++ p.story.key ++ "_" ++ fmtYYYYMMDD_HHMMSS now

/-- `ContextIndexer.index_test_plan` (lines 29-73): one `add_documents` call
for the single plan document; any exception inside the `try` is logged and
swallowed ("Don't raise - indexing failure shouldn't block test
generation"). -/
def index_test_plan (b : Backend) (provider : Provider) (store : Store)
    (p : TestPlanM) (now : DateTime) : Except PyErr Store :=
  match (add_documents b provider store TEST_PLANS_COLLECTION
      [testPlanDocText p] [testPlanMeta p now] [testPlanDocId p now]).1 with
  | .ok s => .ok s
  | .error _ => .ok store

/-- The `except Exception` clause shared by the three list indexers: a
failure escaping the batch loop is logged and swallowed, leaving the store
as the last successful batch left it. -/
def swallow (r : Except (PyErr × Store) Store) : Except PyErr Store :=
  match r with
  | .ok s => .ok s
  | .error es => .ok es.2

/-- Run a sequence of per-batch store updates, recording which batches were
submitted; the first failing batch aborts the loop, carrying the store state
reached so far (earlier batches' writes are already persisted). -/
def runBatchesTr {β : Type} (step : Store → β → Except PyErr Store) :
    Store → List β → Except (PyErr × Store) Store × List β
  | s, [] => (.ok s, [])
  | s, batch :: bs =>
    match step s batch with
    | .ok s2 =>
      let r := runBatchesTr step s2 bs
      (r.1, batch :: r.2)
    | .error e => (.error (e, s), [batch])

/-- Document text built by `index_confluence_docs` (line 146). -/
def confDocText (d : ConfDocM) : String :=
  "Title: " ++ d.title.getD "Unknown" ++ "\n\n" ++ (d.content.getD "").take 5000

/-- Metadata built by `index_confluence_docs` (lines 150-157). -/
def confMeta (project_key : Option String) (now : DateTime) (d : ConfDocM) : Meta :=
  [("doc_id", d.id.getD ""),
   ("title", (d.title.getD "").take 200),
   ("space", d.space.getD ""),
   ("url", d.url.getD ""),
   ("project_key", pyOrStr project_key "unknown"),
   ("timestamp", isoformat now)]

/-- Id built by `index_confluence_docs` (line 161):
`f"confluence_{doc.get('id', doc.get('title', 'unknown'))}_{now:%Y%m%d}"`. -/
def confDocId (d : ConfDocM) (now : DateTime) : String :=
  "confluence_" ++ d.id.getD (d.title.getD "unknown") ++ "_" ++ fmtYYYYMMDD now

/-- `ContextIndexer.index_confluence_docs` (lines 106-179): empty input is a
no-op; otherwise the docs are paged into batches of `BATCH_SIZE = 1000`, one
`add_documents` call per batch; the whole loop sits in a `try` whose
`except` logs and swallows, so the call never raises.  Returns the result
together with the batches for which `add_documents` was invoked. -/
def index_confluence_docs (b : Backend) (provider : Provider) (store : Store)
    (docs : List ConfDocM) (project_key : Option String) (now : DateTime) :
    Except PyErr Store × List (List ConfDocM) :=
  if docs.isEmpty then (.ok store, [])
  else
    let r := runBatchesTr (fun st batch =>
      (add_documents b provider st CONFLUENCE_DOCS_COLLECTION
        (batch.map confDocText)
        (batch.map (confMeta project_key now))
        (batch.map (fun d => confDocId d now))).1) store (chunkList 1000 docs)
    (swallow r.1, r.2)

/-- Document text built by `index_jira_stories` (lines 221-225). -/
def jiraDocText (s : JiraStoryM) : String :=
  "Story: " ++ s.key ++ " - " ++ s.summary ++ "\n\n"
    ++ (if pyStrTruthy s.description then
          "Description: " ++ (s.description.getD "").take 2000 ++ "\n\n"
        else "")
    ++ (if pyStrTruthy s.acceptance_criteria then
          "Acceptance Criteria: " ++ (s.acceptance_criteria.getD "").take 2000
        else "")

/-- Metadata built by `index_jira_stories` (lines 230-238); the partition
key is `project_key or story.key.split('-')[0]`. -/
def jiraMeta (project_key : Option String) (now : DateTime) (s : JiraStoryM) : Meta :=
  [("story_key", s.key),
   ("project_key", pyOrStr project_key (keyPrefix s.key)),
   ("summary", s.summary.take 200),
   ("issue_type", s.issue_type),
   ("status", s.status),
   ("components", String.intercalate "," s.components),
   ("timestamp", isoformat now)]

/-- Id built by `index_jira_stories` (line 242): `f"jira_{story.key}"` — a
natural key with no timestamp suffix, so re-indexing overwrites. -/
def jiraDocId (s : JiraStoryM) : String := "jira_" ++ s.key

/-- `ContextIndexer.index_jira_stories` (lines 181-260): same paging and
swallow-all-failures shape as `index_confluence_docs`. -/
def index_jira_stories (b : Backend) (provider : Provider) (store : Store)
    (stories : List JiraStoryM) (project_key : Option String) (now : DateTime) :
    Except PyErr Store × List (List JiraStoryM) :=
  if stories.isEmpty then (.ok store, [])
  else
    let r := runBatchesTr (fun st batch =>
      (add_documents b provider st JIRA_STORIES_COLLECTION
        (batch.map jiraDocText)
        (batch.map (jiraMeta project_key now))
        (batch.map jiraDocId)).1) store (chunkList 1000 stories)
    (swallow r.1, r.2)

/-- Document text built by `index_existing_tests` (lines 301-305). -/
def testDocText (t : TestRecM) : String :=
  "Test: " ++ t.name.getD "Unknown" ++ "\n\n"
    ++ (if pyStrTruthy t.objective then
          "Objective: " ++ (t.objective.getD "").take 1000 ++ "\n\n"
        else "")
    ++ (if pyStrTruthy t.precondition then
          "Precondition: " ++ (t.precondition.getD "").take 500
        else "")

/-- Metadata built by `index_existing_tests` (lines 309-325), with the
dict-valued `status`/`priority` fields normalized to their `name`. -/
def testMeta (project_key : String) (now : DateTime) (t : TestRecM) : Meta :=
  [("test_key", t.key.getD ""),
   ("test_name", (t.name.getD "").take 200),
   ("project_key", project_key),
   ("status", (t.status.getD (.str "")).normalize),
   ("priority", (t.priority.getD (.str "")).normalize),
   ("timestamp", isoformat now)]

/-- The natural key of a test record (line 329):
`test.get('key', test.get('name', 'unknown'))`. -/
def testKeyOf (t : TestRecM) : String := t.key.getD (t.name.getD "unknown")

/-- Id built by `index_existing_tests` (line 330):
`f"test_{test_key}_{now:%Y%m%d}"` — the natural key plus the indexing day. -/
def testDocId (t : TestRecM) (now : DateTime) : String :=
  "test_" ++ testKeyOf t ++ "_" ++ fmtYYYYMMDD now

/-- `ContextIndexer.index_existing_tests` (lines 262-347): same paging and
swallow-all-failures shape as the other list indexers. -/
def index_existing_tests (b : Backend) (provider : Provider) (store : Store)
    (tests : List TestRecM) (project_key : String) (now : DateTime) :
    Except PyErr Store × List (List TestRecM) :=
  if tests.isEmpty then (.ok store, [])
  else
    let r := runBatchesTr (fun st batch =>
      (add_documents b provider st EXISTING_TESTS_COLLECTION
        (batch.map testDocText)
        (batch.map (testMeta project_key now))
        (batch.map (fun t => testDocId t now))).1) store (chunkList 1000 tests)
    (swallow r.1, r.2)

/-! ## RAGRetriever (`rag_retriever.py`) -/

/-- `RetrievedContext` (lines 16-40). -/
structure RetrievedContext where
  similar_test_plans : List RetrievedDoc
  similar_confluence_docs : List RetrievedDoc
  similar_jira_stories : List RetrievedDoc
  similar_existing_tests : List RetrievedDoc
deriving DecidableEq, Repr

/-- `RetrievedContext.has_context` (lines 24-31): true iff any of the four
lists is non-empty. -/
def RetrievedContext.has_context (c : RetrievedContext) : Bool :=
  !c.similar_test_plans.isEmpty || !c.similar_confluence_docs.isEmpty ||
  !c.similar_jira_stories.isEmpty || !c.similar_existing_tests.isEmpty

/-- `RAGRetriever._build_query` (lines 120-140): summary, plus the first 500
characters of the description when present, plus the components line. -/
def build_query (s : JiraStoryM) : String :=
  String.intercalate "\n"
    ([s.summary]
     ++ (if pyStrTruthy s.description then [(s.description.getD "").take 500]
         else [])
     ++ (if s.components.isEmpty then []
         else ["Components: " ++ String.intercalate ", " s.components]))

/-- The partition key `retrieve_for_story` uses (lines 76-77):
`if not project_key: project_key = story.key.split('-')[0]`. -/
def retrieverProjectKey (project_key : Option String) (key : String) : String :=
  match project_key with
  | none => keyPrefix key
  | some s => if s == "" then keyPrefix key else s

/-- One per-collection lookup (`_retrieve_similar_test_plans` and its three
siblings, lines 142-240): inside a `try` that returns `[]` on any exception,
check `get_collection_stats`; a zero count short-circuits to `[]`, otherwise
`retrieve_similar` runs with the collection-specific `top_k` and the
metadata filter.  Every step of the body is itself total in this model
(each already catches its own failures), making the branch total. -/
def retrieveBranch (b : Backend) (provider : Provider) (store : Store)
    (collection_name : String) (query : String) (top_k : Nat)
    (metadata_filter : Meta) : List RetrievedDoc :=
  if get_collection_stats_count b store collection_name = 0 then []
  else retrieve_similar b provider store collection_name query top_k
    (some metadata_filter)

/-- The per-task guard `asyncio.gather(..., return_exceptions=True)` plus
the `isinstance(x, Exception)` checks of lines 96-108: an exception escaping
a branch becomes `[]` for that branch alone. -/
def gatherIsolate (x : Except Unit (List RetrievedDoc)) : List RetrievedDoc :=
  match x with
  | .ok l => l
  | .error _ => []

/-- `RAGRetriever.retrieve_for_story` (lines 58-118): derive the partition
key, build the composite query, fan out the four per-collection lookups
(each wrapped in the gather isolation), and aggregate the four result lists
into a `RetrievedContext`. -/
def retrieve_for_story (b : Backend) (provider : Provider) (store : Store)
    (story : JiraStoryM) (project_key : Option String)
    (top_k_tests top_k_docs top_k_stories top_k_existing : Nat) :
    RetrievedContext :=
  let pk := retrieverProjectKey project_key story.key
  let query := build_query story
  let filter : Meta := [("project_key", pk)]
  { similar_test_plans := gatherIsolate (.ok
      (retrieveBranch b provider store TEST_PLANS_COLLECTION query
        top_k_tests filter))
    similar_confluence_docs := gatherIsolate (.ok
      (retrieveBranch b provider store CONFLUENCE_DOCS_COLLECTION query
        top_k_docs filter))
    similar_jira_stories := gatherIsolate (.ok
      (retrieveBranch b provider store JIRA_STORIES_COLLECTION query
        top_k_stories filter))
    similar_existing_tests := gatherIsolate (.ok
      (retrieveBranch b provider store EXISTING_TESTS_COLLECTION query
        top_k_existing filter)) }

/-- The per-batch store update a list indexer performs on the non-failing
backend: one `add_documents` call over the batch's generated texts,
metadatas and ids (used to state the indexers' success-path behaviour). -/
def indexFold {β : Type} (provider : Provider) (cname : String)
    (textOf : β → String) (metaOf : β → Meta) (idOf : β → String)
    (st : Store) (batch : List β) : Store :=
  storeSet st cname (colAddRows (st cname)
    (rowsFor provider (batch.map textOf) (batch.map metaOf) (batch.map idOf)))

/-- A trivially well-behaved embedding provider (one vector per text),
used to instantiate universally quantified statements at concrete inputs. -/
def constProvider : Provider := fun batch => .ok (batch.map (fun _ => []))

/-- A backend on which exactly one collection's k-NN query raises
("force collection X's query to throw"). -/
def failBackend (cname : String) : Backend :=
  { getCollFails := fun _ => false
    addFails := fun _ => false
    queryFails := fun n => n == cname
    statsFails := fun _ => false }

/-- The spec's isolation scenario: one document seeded in plan memory (and
one in documentation memory, so the documentation query is actually
reached), both tagged with the partition key the retriever will derive. -/
def scenarioStore : Store := fun n =>
  if n = TEST_PLANS_COLLECTION then
    [("tp1", ⟨"past plan", [("project_key", "PLAT")], []⟩)]
  else if n = CONFLUENCE_DOCS_COLLECTION then
    [("cd1", ⟨"doc page", [("project_key", "PLAT")], []⟩)]
  else []

/-- A concrete query ticket for the isolation scenario. -/
def scenarioStory : JiraStoryM :=
  ⟨"PLAT-1", "A summary", none, "Story", "Open", [], none⟩

/-! ## Helper lemmas: chunking and embeddings -/

theorem constProvider_exact : ProviderExact constProvider := by
  intro bt r h
  simp only [constProvider, Except.ok.injEq] at h
  subst h
  simp

theorem chunkList_nil {α : Type} (n : Nat) : chunkList n ([] : List α) = [] := by
  rw [chunkList]; exact dif_pos (Or.inl rfl)

theorem chunkList_cons {α : Type} (n : Nat) (l : List α) (hl : l ≠ []) (hn : n ≠ 0) :
    chunkList n l = l.take n :: chunkList n (l.drop n) := by
  rw [chunkList]
  refine dif_neg ?_
  push_neg
  exact ⟨by simpa [List.isEmpty_iff] using hl, hn⟩

/-- Every chunk has size at most `n`. -/
theorem chunkList_le {α : Type} (n : Nat) (l : List α) :
    ∀ c ∈ chunkList n l, c.length ≤ n := by
  induction l using chunkList.induct n with
  | case1 l h =>
    rw [chunkList, dif_pos h]
    intro c hc
    exact absurd hc (List.not_mem_nil c)
  | case2 l h ih =>
    rw [chunkList, dif_neg h]
    intro c hc
    rcases List.mem_cons.mp hc with hc | hc
    · subst hc; simpa using List.length_take_le n l
    · exact ih c hc

/-- Chunks are never empty. -/
theorem chunkList_ne_nil {α : Type} (n : Nat) (l : List α) :
    ∀ c ∈ chunkList n l, c ≠ [] := by
  induction l using chunkList.induct n with
  | case1 l h =>
    rw [chunkList, dif_pos h]
    intro c hc
    exact absurd hc (List.not_mem_nil c)
  | case2 l h ih =>
    rw [chunkList, dif_neg h]
    push_neg at h
    intro c hc
    rcases List.mem_cons.mp hc with hc | hc
    · subst hc
      have hl : l ≠ [] := by simpa [List.isEmpty_iff] using h.1
      simp only [ne_eq, List.take_eq_nil_iff]
      push_neg
      exact ⟨h.2, hl⟩
    · exact ih c hc

/-- Chunks concatenate back to the original list (chunking loses nothing and
preserves order). -/
theorem chunkList_flatten {α : Type} (n : Nat) (hn : n ≠ 0) (l : List α) :
    (chunkList n l).flatten = l := by
  induction l using chunkList.induct n with
  | case1 l h =>
    rw [chunkList, dif_pos h]
    rcases h with h | h
    · simp [List.isEmpty_iff.mp h]
    · exact absurd h hn
  | case2 l h ih =>
    rw [chunkList, dif_neg h]
    simp [ih, List.take_append_drop]

/-- Number of chunks of size 1000: `ceil (len / 1000)`. -/
theorem chunkList_1000_length {α : Type} (l : List α) :
    (chunkList 1000 l).length = (l.length + 999) / 1000 := by
  induction l using chunkList.induct 1000 with
  | case1 l h =>
    rw [chunkList, dif_pos h]
    rcases h with h | h
    · simp [List.isEmpty_iff.mp h]
    · omega
  | case2 l h ih =>
    push_neg at h
    rw [chunkList_cons 1000 l (by simpa [List.isEmpty_iff] using h.1) h.2]
    have hlen : l.length ≠ 0 := by
      simpa [List.length_eq_zero] using (by simpa [List.isEmpty_iff] using h.1 : l ≠ [])
    simp only [List.length_cons, ih, List.length_drop]
    omega

theorem embed_texts_length (provider : Provider) (hp : ProviderExact provider)
    (texts : List String) : (embed_texts provider texts).length = texts.length := by
  unfold embed_texts
  by_cases he : texts.isEmpty
  · simp [he, List.isEmpty_iff.mp he]
  · rw [if_neg (by simp [he])]
    conv_rhs => rw [← chunkList_flatten 100 (by norm_num) texts]
    rw [List.length_flatMap, List.length_flatten]
    congr 1
    apply List.map_congr_left
    intro batch _
    cases hpb : provider batch with
    | ok r => simp [hpb, hp batch r hpb]
    | error e => simp [hpb]

/-! ## Helper lemmas: collections -/

theorem colUpsert_length_of_mem (c : Collection) (id : String) (d : StoredDoc)
    (h : id ∈ colIds c) : (colUpsert c id d).length = c.length := by
  unfold colUpsert
  rw [if_pos]
  · simp
  · rcases List.mem_map.mp h with ⟨p, hp, hpid⟩
    exact List.any_eq_true.mpr ⟨p, hp, by simp [hpid]⟩

theorem colUpsert_length_of_not_mem (c : Collection) (id : String) (d : StoredDoc)
    (h : id ∉ colIds c) : (colUpsert c id d).length = c.length + 1 := by
  unfold colUpsert
  rw [if_neg]
  · simp
  · intro hany
    rcases List.any_eq_true.mp hany with ⟨p, hp, hpid⟩
    exact h (List.mem_map.mpr ⟨p, hp, by simpa using hpid⟩)

theorem lookup_map_overwrite (id : String) (d : StoredDoc) :
    ∀ c : Collection, c.any (fun p => p.1 = id) = true →
      (c.map (fun p => if p.1 = id then (id, d) else p)).lookup id = some d := by
  intro c
  induction c with
  | nil => simp
  | cons q qs ih =>
    intro hany
    by_cases hq : q.1 = id
    · have hq' : (if q.1 = id then (id, d) else q) = (id, d) := if_pos hq
      rw [List.map_cons, hq']
      simp [List.lookup]
    · have hqs : qs.any (fun p => decide (p.1 = id)) = true := by
        rcases List.any_eq_true.mp hany with ⟨p, hp, hpd⟩
        rcases List.mem_cons.mp hp with hph | hp
        · subst hph; simp only [decide_eq_true_eq] at hpd; exact absurd hpd hq
        · exact List.any_eq_true.mpr ⟨p, hp, hpd⟩
      have hq' : (if q.1 = id then (id, d) else q) = q := if_neg hq
      have hne : (id == q.1) = false :=
        beq_eq_false_iff_ne.mpr (fun h => hq h.symm)
      rw [List.map_cons, hq']
      simp only [List.lookup, hne]
      exact ih hqs

theorem lookup_append_fresh (id : String) (d : StoredDoc) :
    ∀ c : Collection, c.any (fun p => p.1 = id) = false →
      (c ++ [(id, d)]).lookup id = some d := by
  intro c
  induction c with
  | nil => simp [List.lookup]
  | cons q qs ih =>
    intro hany
    simp only [List.any_cons, Bool.or_eq_false_iff, decide_eq_false_iff_not] at hany
    have hne : (id == q.1) = false :=
      beq_eq_false_iff_ne.mpr (fun h => hany.1 h.symm)
    simp only [List.cons_append, List.lookup, hne]
    exact ih (by simpa using hany.2)

theorem colUpsert_lookup_self (c : Collection) (id : String) (d : StoredDoc) :
    (colUpsert c id d).lookup id = some d := by
  unfold colUpsert
  by_cases hany : c.any (fun p => p.1 = id) = true
  · rw [if_pos hany]
    exact lookup_map_overwrite id d c hany
  · rw [if_neg hany]
    exact lookup_append_fresh id d c (Bool.not_eq_true _ ▸ hany)

theorem mem_colIds_upsert_self (c : Collection) (id : String) (d : StoredDoc) :
    id ∈ colIds (colUpsert c id d) := by
  unfold colUpsert colIds
  split
  · rename_i hany
    rcases List.any_eq_true.mp hany with ⟨p, hp, hpid⟩
    simp only [decide_eq_true_eq] at hpid
    refine List.mem_map.mpr ⟨(id, d), ?_, rfl⟩
    refine List.mem_map.mpr ⟨p, hp, ?_⟩
    simp [hpid]
  · simp

theorem mem_colIds_upsert_of_mem (c : Collection) (id j : String) (d : StoredDoc)
    (h : j ∈ colIds c) : j ∈ colIds (colUpsert c id d) := by
  unfold colUpsert colIds
  rcases List.mem_map.mp h with ⟨p, hp, hpj⟩
  split
  · refine List.mem_map.mpr ?_
    by_cases hpid : p.1 = id
    · exact ⟨(id, d), List.mem_map.mpr ⟨p, hp, by simp [hpid]⟩, by simp [← hpj, hpid]⟩
    · exact ⟨p, List.mem_map.mpr ⟨p, hp, by simp [hpid]⟩, hpj⟩
  · exact List.mem_map.mpr ⟨p, List.mem_append_left _ hp, hpj⟩

theorem mem_colIds_addRows_of_mem (c : Collection) (rows : List (String × StoredDoc))
    (j : String) (h : j ∈ colIds c) : j ∈ colIds (colAddRows c rows) := by
  induction rows generalizing c with
  | nil => simpa [colAddRows] using h
  | cons r rs ih =>
    simp only [colAddRows, List.foldl_cons]
    exact ih _ (mem_colIds_upsert_of_mem c r.1 j r.2 h)

theorem mem_colIds_addRows_of_mem_fst (c : Collection)
    (rows : List (String × StoredDoc)) (j : String)
    (h : j ∈ rows.map Prod.fst) : j ∈ colIds (colAddRows c rows) := by
  induction rows generalizing c with
  | nil => simp at h
  | cons r rs ih =>
    simp only [colAddRows, List.foldl_cons]
    rw [List.map_cons] at h
    rcases List.mem_cons.mp h with hj | hj
    · exact mem_colIds_addRows_of_mem _ rs j (hj ▸ mem_colIds_upsert_self c r.1 r.2)
    · exact ih _ hj

theorem storeSet_self (s : Store) (name : String) (c : Collection) :
    storeSet s name c name = c := by
  simp [storeSet]

theorem storeSet_other (s : Store) (name n : String) (c : Collection)
    (h : n ≠ name) : storeSet s name c n = s n := by
  simp [storeSet, h]

/-! ## Helper lemmas: add_documents and the batch loop -/

theorem lengthGuard_eq_left (n m : Nat) : lengthGuardTriggers n n m = false := by
  simp [lengthGuardTriggers]

/-- On the non-failing backend, with a non-empty document list whose length
guard does not fire, `add_documents` upserts the zipped rows. -/
theorem add_documents_okBackend (provider : Provider) (store : Store)
    (cname : String) (docs : List String) (metas : List Meta) (ids : List String)
    (hne : docs ≠ [])
    (hg : lengthGuardTriggers docs.length metas.length ids.length = false) :
    add_documents okBackend provider store cname docs metas ids =
      (.ok (storeSet store cname (colAddRows (store cname)
        (rowsFor provider docs metas ids))),
       embed_texts_calls docs) := by
  unfold add_documents
  rw [if_neg (by simpa [List.isEmpty_iff] using hne), if_neg (by simp [hg])]
  simp [okBackend]

/-- When every step succeeds and acts as `f`, the batch loop folds `f` over
all batches and submits every batch. -/
theorem runBatchesTr_ok_fold {β : Type} (step : Store → β → Except PyErr Store)
    (f : Store → β → Store) (hstep : ∀ s b, step s b = .ok (f s b)) :
    ∀ (s : Store) (bs : List β),
      runBatchesTr step s bs = (.ok (bs.foldl f s), bs) := by
  intro s bs
  induction bs generalizing s with
  | nil => simp [runBatchesTr]
  | cons b bs ih => simp [runBatchesTr, hstep, ih]

theorem indexFold_nil {β : Type} (provider : Provider) (cname : String)
    (textOf : β → String) (metaOf : β → Meta) (idOf : β → String) (st : Store) :
    indexFold provider cname textOf metaOf idOf st [] = st := by
  funext n
  unfold indexFold storeSet
  split
  · rename_i h; subst h; simp [rowsFor, colAddRows]
  · rfl

/-- The per-batch step every list indexer runs, on the non-failing backend,
is exactly `indexFold`. -/
theorem add_documents_step_ok {β : Type} (provider : Provider) (cname : String)
    (textOf : β → String) (metaOf : β → Meta) (idOf : β → String) :
    ∀ (s : Store) (batch : List β),
      (add_documents okBackend provider s cname (batch.map textOf)
        (batch.map metaOf) (batch.map idOf)).1
        = .ok (indexFold provider cname textOf metaOf idOf s batch) := by
  intro s batch
  cases batch with
  | nil =>
    rw [indexFold_nil]
    simp [add_documents]
  | cons r rs =>
    rw [add_documents_okBackend provider s cname _ _ _ (by simp)
      (by simp [lengthGuard_eq_left])]
    rfl

theorem index_confluence_docs_okBackend (provider : Provider) (store : Store)
    (docs : List ConfDocM) (pk : Option String) (now : DateTime)
    (hne : docs ≠ []) :
    index_confluence_docs okBackend provider store docs pk now
      = (.ok ((chunkList 1000 docs).foldl
          (indexFold provider CONFLUENCE_DOCS_COLLECTION confDocText
            (confMeta pk now) (fun d => confDocId d now)) store),
         chunkList 1000 docs) := by
  unfold index_confluence_docs
  rw [if_neg (by simpa [List.isEmpty_iff] using hne)]
  rw [runBatchesTr_ok_fold _
    (indexFold provider CONFLUENCE_DOCS_COLLECTION confDocText
      (confMeta pk now) (fun d => confDocId d now))
    (add_documents_step_ok provider CONFLUENCE_DOCS_COLLECTION _ _ _)]
  rfl

theorem index_jira_stories_okBackend (provider : Provider) (store : Store)
    (stories : List JiraStoryM) (pk : Option String) (now : DateTime)
    (hne : stories ≠ []) :
    index_jira_stories okBackend provider store stories pk now
      = (.ok ((chunkList 1000 stories).foldl
          (indexFold provider JIRA_STORIES_COLLECTION jiraDocText
            (jiraMeta pk now) jiraDocId) store),
         chunkList 1000 stories) := by
  unfold index_jira_stories
  rw [if_neg (by simpa [List.isEmpty_iff] using hne)]
  rw [runBatchesTr_ok_fold _
    (indexFold provider JIRA_STORIES_COLLECTION jiraDocText
      (jiraMeta pk now) jiraDocId)
    (add_documents_step_ok provider JIRA_STORIES_COLLECTION _ _ _)]
  rfl

theorem index_existing_tests_okBackend (provider : Provider) (store : Store)
    (tests : List TestRecM) (pkey : String) (now : DateTime)
    (hne : tests ≠ []) :
    index_existing_tests okBackend provider store tests pkey now
      = (.ok ((chunkList 1000 tests).foldl
          (indexFold provider EXISTING_TESTS_COLLECTION testDocText
            (testMeta pkey now) (fun t => testDocId t now)) store),
         chunkList 1000 tests) := by
  unfold index_existing_tests
  rw [if_neg (by simpa [List.isEmpty_iff] using hne)]
  rw [runBatchesTr_ok_fold _
    (indexFold provider EXISTING_TESTS_COLLECTION testDocText
      (testMeta pkey now) (fun t => testDocId t now))
    (add_documents_step_ok provider EXISTING_TESTS_COLLECTION _ _ _)]
  rfl

theorem rowsFor_map_fst (provider : Provider) (docs : List String)
    (metas : List Meta) (ids : List String)
    (hd : docs.length = ids.length) (hm : metas.length = ids.length)
    (he : (embed_texts provider docs).length = docs.length) :
    (rowsFor provider docs metas ids).map Prod.fst = ids := by
  unfold rowsFor
  rw [List.map_map]
  have : (Prod.fst ∘ fun r : String × ((String × Meta) × Vec) =>
      (r.1, StoredDoc.mk r.2.1.1 r.2.1.2 r.2.2)) = Prod.fst := by
    funext r; rfl
  rw [this, List.map_fst_zip]
  simp only [List.length_zip, he, hd, hm]
  omega

theorem foldl_indexFold_preserves {β : Type} (provider : Provider)
    (cname : String) (textOf : β → String) (metaOf : β → Meta)
    (idOf : β → String) :
    ∀ (chunks : List (List β)) (st : Store) (j : String),
      j ∈ colIds (st cname) →
      j ∈ colIds ((chunks.foldl
        (indexFold provider cname textOf metaOf idOf) st) cname) := by
  intro chunks
  induction chunks with
  | nil => intro st j h; simpa using h
  | cons ch chs ih =>
    intro st j h
    simp only [List.foldl_cons]
    apply ih
    unfold indexFold
    rw [storeSet_self]
    exact mem_colIds_addRows_of_mem _ _ j h

theorem foldl_indexFold_inserts {β : Type} (provider : Provider)
    (hp : ProviderExact provider) (cname : String) (textOf : β → String)
    (metaOf : β → Meta) (idOf : β → String) :
    ∀ (chunks : List (List β)) (st : Store) (c : List β) (r : β),
      c ∈ chunks → r ∈ c →
      idOf r ∈ colIds ((chunks.foldl
        (indexFold provider cname textOf metaOf idOf) st) cname) := by
  intro chunks
  induction chunks with
  | nil => intro st c r hc; simp at hc
  | cons ch chs ih =>
    intro st c r hc hr
    simp only [List.foldl_cons]
    rcases List.mem_cons.mp hc with hc | hc
    · subst hc
      apply foldl_indexFold_preserves
      unfold indexFold
      rw [storeSet_self]
      apply mem_colIds_addRows_of_mem_fst
      rw [rowsFor_map_fst provider _ _ _ (by simp) (by simp)
        (embed_texts_length provider hp _)]
      exact List.mem_map.mpr ⟨r, hr, rfl⟩
    · exact ih _ c r hc hr

/-! ## Helper lemmas: singleton indexing -/

theorem chunkList_small {α : Type} (n : Nat) (l : List α) (hne : l ≠ [])
    (hle : l.length ≤ n) : chunkList n l = [l] := by
  have hn : n ≠ 0 := by
    have : 0 < l.length := List.length_pos.mpr hne
    omega
  rw [chunkList_cons n l hne hn, List.take_of_length_le hle,
    List.drop_eq_nil_of_le hle, chunkList_nil]

theorem embed_texts_single (provider : Provider) (hp : ProviderExact provider)
    (text : String) : ∃ e, embed_texts provider [text] = [e] := by
  have h := embed_texts_length provider hp [text]
  simp only [List.length_cons, List.length_nil] at h
  exact List.length_eq_one.mp h

theorem rowsFor_single (provider : Provider) (hp : ProviderExact provider)
    (text : String) (meta : Meta) (id : String) :
    ∃ d, rowsFor provider [text] [meta] [id] = [(id, d)] := by
  obtain ⟨e, he⟩ := embed_texts_single provider hp text
  exact ⟨StoredDoc.mk text meta e, by simp [rowsFor, he]⟩

theorem indexFold_single {β : Type} (provider : Provider)
    (hp : ProviderExact provider) (cname : String) (textOf : β → String)
    (metaOf : β → Meta) (idOf : β → String) (st : Store) (r : β) :
    ∃ d, indexFold provider cname textOf metaOf idOf st [r]
      = storeSet st cname (colUpsert (st cname) (idOf r) d) := by
  obtain ⟨d, hd⟩ := rowsFor_single provider hp (textOf r) (metaOf r) (idOf r)
  refine ⟨d, ?_⟩
  unfold indexFold
  simp only [List.map_cons, List.map_nil, hd]
  simp [colAddRows]

theorem chunkList_1000_single {β : Type} (r : β) :
    chunkList 1000 [r] = [[r]] := by
  rw [chunkList_cons 1000 [r] (by simp) (by norm_num)]
  simp [chunkList_nil]

/-! ## Helper lemmas: date formatting -/

theorem digitChar_injF : ∀ a b : Fin 10, digitChar a.val = digitChar b.val → a = b := by
  decide

theorem digitChar_inj (a b : Nat) (ha : a < 10) (hb : b < 10)
    (h : digitChar a = digitChar b) : a = b :=
  congrArg Fin.val (digitChar_injF ⟨a, ha⟩ ⟨b, hb⟩ h)

theorem fmtYYYYMMDD_sameDay (t u : DateTime) (h : t.sameDay u) :
    fmtYYYYMMDD t = fmtYYYYMMDD u := by
  simp only [fmtYYYYMMDD, h.1, h.2.1, h.2.2]

theorem fmtYYYYMMDD_inj (t u : DateTime) (ht : t.valid) (hu : u.valid)
    (h : fmtYYYYMMDD t = fmtYYYYMMDD u) : t.sameDay u := by
  have hd : pad4 t.year ++ pad2 t.month ++ pad2 t.day
      = pad4 u.year ++ pad2 u.month ++ pad2 u.day := congrArg String.data h
  simp only [pad4, pad2, List.cons_append, List.nil_append, List.cons.injEq,
    and_true] at hd
  obtain ⟨e1, e2, e3, e4, e5, e6, e7, e8⟩ := hd
  have m10 : ∀ k : Nat, k % 10 < 10 := fun k => Nat.mod_lt _ (by norm_num)
  have d1 := digitChar_inj _ _ (m10 _) (m10 _) e1
  have d2 := digitChar_inj _ _ (m10 _) (m10 _) e2
  have d3 := digitChar_inj _ _ (m10 _) (m10 _) e3
  have d4 := digitChar_inj _ _ (m10 _) (m10 _) e4
  have d5 := digitChar_inj _ _ (m10 _) (m10 _) e5
  have d6 := digitChar_inj _ _ (m10 _) (m10 _) e6
  have d7 := digitChar_inj _ _ (m10 _) (m10 _) e7
  have d8 := digitChar_inj _ _ (m10 _) (m10 _) e8
  obtain ⟨hty, htm1, htm2, htd1, htd2⟩ := ht
  obtain ⟨huy, hum1, hum2, hud1, hud2⟩ := hu
  refine ⟨?_, ?_, ?_⟩ <;> omega

theorem string_append_left_cancel (s t1 t2 : String)
    (h : s ++ t1 = s ++ t2) : t1 = t2 := by
  have hd : s.data ++ t1.data = s.data ++ t2.data := by
    have := congrArg String.data h
    simpa [String.data_append] using this
  cases t1; cases t2
  exact congrArg String.mk (List.append_cancel_left hd)

theorem testDocId_date_eq (t : TestRecM) (d1 d2 : DateTime)
    (h : testDocId t d1 = testDocId t d2) :
    fmtYYYYMMDD d1 = fmtYYYYMMDD d2 := by
  unfold testDocId at h
  apply string_append_left_cancel ("test_" ++ testKeyOf t ++ "_")
  simpa [String.append_assoc] using h

/-! ## Claim theorems -/

/-- C1: the spec claims `addDocuments` with non-empty `documents` whose three
input lists do not all share one length fails immediately with a contract
error, before any embedding or provider call.  The code's guard
`len(documents) != len(metadatas) != len(ids)` is a Python chained
comparison, so for lengths (1, 1, 2) it does not fire: the call raises no
`ValueError` and proceeds to make an embedding-provider call.  (When the
guard does fire, e.g. lengths (1, 2, 3), the call does fail with the
contract error before any provider call, as the last conjunct records.) -/
theorem c1_length_guard_bypassed :
    ∀ (b : Backend) (provider : Provider) (store : Store) (cname : String),
      lengthGuardTriggers 1 1 2 = false
      ∧ (add_documents b provider store cname ["a"] [[]] ["x", "y"]).2 = [["a"]]
      ∧ (add_documents b provider store cname ["a"] [[]] ["x", "y"]).1
          ≠ .error PyErr.valueError
      ∧ add_documents b provider store cname ["a"] [[], []] ["x", "y", "z"]
          = (.error PyErr.valueError, []) := by
  intro b provider store cname
  have hc : embed_texts_calls ["a"] = [["a"]] := by
    unfold embed_texts_calls
    rw [if_neg (by decide), chunkList_small 100 ["a"] (by decide) (by decide)]
  refine ⟨by decide, ?_, ?_, ?_⟩
  · unfold add_documents
    rw [if_neg (by decide), if_neg (by decide)]
    dsimp only
    split_ifs <;> simp [hc]
  · unfold add_documents
    rw [if_neg (by decide), if_neg (by decide)]
    dsimp only
    split_ifs <;> simp
  · unfold add_documents
    rw [if_neg (by decide), if_pos (by decide)]

/-- C5: `embedTexts` never raises (it is a total function of the provider's
per-chunk outcomes); a chunk whose provider call fails contributes one
zero-filled vector of the expected dimension 1536 per text of that chunk,
while every non-failing chunk contributes exactly the provider's vectors;
the output still covers every input text. -/
theorem c5_chunk_failure_zero_fill :
    ∀ (f : String → Vec) (fails : List String → Bool) (texts : List String),
      embed_texts
          (fun batch => if fails batch then .error () else .ok (batch.map f))
          texts
        = (embed_texts_calls texts).flatMap
            (fun c => if fails c then List.replicate c.length zeroVec
                      else c.map f)
      ∧ (embed_texts
          (fun batch => if fails batch then .error () else .ok (batch.map f))
          texts).length = texts.length
      ∧ zeroVec.length = 1536 := by
  intro f fails texts
  refine ⟨?_, ?_, by simp only [zeroVec, List.length_replicate]⟩
  · unfold embed_texts embed_texts_calls
    by_cases he : texts.isEmpty
    · rw [if_pos he, if_pos he]
      rfl
    · rw [if_neg he, if_neg he]
      congr 1
      funext c
      by_cases hf : fails c
      · simp [hf]
      · simp [hf]
  · apply embed_texts_length
    intro bt r h
    by_cases hf : fails bt
    · simp [hf] at h
    · simp only [hf, if_false] at h
      cases h
      simp

/-- C6: `embedTexts` maps each input text to one vector, in input order
(shown literally for any pointwise provider), processing the input in
chunks of at most 100 which concatenate back to the input; the empty input
yields the empty output with no provider call. -/
theorem c6_embed_texts_shape :
    (∀ provider : Provider,
      embed_texts provider [] = [] ∧ embed_texts_calls [] = [])
    ∧ (∀ provider : Provider, ProviderExact provider →
        ∀ texts : List String,
          (embed_texts provider texts).length = texts.length)
    ∧ (∀ texts : List String, (embed_texts_calls texts).flatten = texts)
    ∧ (∀ texts : List String, ∀ c ∈ embed_texts_calls texts, c.length ≤ 100)
    ∧ (∀ (f : String → Vec) (texts : List String),
        embed_texts (fun batch => .ok (batch.map f)) texts = texts.map f) := by
  refine ⟨fun provider => ⟨rfl, rfl⟩, embed_texts_length, ?_, ?_, ?_⟩
  · intro texts
    unfold embed_texts_calls
    by_cases he : texts.isEmpty
    · rw [if_pos he]
      simp [List.isEmpty_iff.mp he]
    · rw [if_neg he]
      exact chunkList_flatten 100 (by norm_num) texts
  · intro texts c hc
    unfold embed_texts_calls at hc
    by_cases he : texts.isEmpty
    · rw [if_pos he] at hc
      exact absurd hc (List.not_mem_nil c)
    · rw [if_neg he] at hc
      exact chunkList_le 100 texts c hc
  · intro f texts
    unfold embed_texts
    by_cases he : texts.isEmpty
    · rw [if_pos he]
      simp [List.isEmpty_iff.mp he]
    · rw [if_neg he]
      have : ∀ ls : List (List String),
          (ls.flatMap fun c => c.map f) = ls.flatten.map f := by
        intro ls
        induction ls with
        | nil => simp
        | cons c cs ih => simp [ih]
      rw [show (fun batch =>
          match (Except.ok (batch.map f) : Except Unit (List Vec)) with
          | .ok embs => embs
          | .error _ => List.replicate batch.length zeroVec)
          = fun batch : List String => batch.map f from rfl]
      rw [this, chunkList_flatten 100 (by norm_num)]

/-- C7: `retrieveSimilar` is total (never raises); on an absent or empty
collection it returns the empty list; a failing `get_or_create_collection`
or a failing underlying k-NN query likewise yields the empty list. -/
theorem c7_retrieve_similar_safe :
    ∀ (b : Backend) (provider : Provider) (store : Store)
      (cname qtext : String) (k : Nat) (filter : Option Meta),
      (store cname = [] →
        retrieve_similar b provider store cname qtext k filter = [])
      ∧ (b.getCollFails cname = true →
        retrieve_similar b provider store cname qtext k filter = [])
      ∧ (b.queryFails cname = true →
        retrieve_similar b provider store cname qtext k filter = []) := by
  intro b provider store cname qtext k filter
  refine ⟨?_, ?_, ?_⟩
  · intro hs
    unfold retrieve_similar
    split_ifs <;> simp [knnQuery, hs]
  · intro hg
    unfold retrieve_similar
    split_ifs <;> simp_all
  · intro hq
    unfold retrieve_similar
    split_ifs <;> simp_all

/-- C8: every indexing entry point swallows every failure arising inside it
(the whole body sits in a `try` whose `except` only logs): whatever the
backend does, the call returns normally — its result is always `.ok`. -/
theorem c8_indexing_never_raises :
    ∀ (b : Backend) (provider : Provider) (store : Store) (p : TestPlanM)
      (docs : List ConfDocM) (stories : List JiraStoryM)
      (tests : List TestRecM) (pk : Option String) (pkey : String)
      (now : DateTime),
      (index_test_plan b provider store p now).isOk = true
      ∧ (index_confluence_docs b provider store docs pk now).1.isOk = true
      ∧ (index_jira_stories b provider store stories pk now).1.isOk = true
      ∧ (index_existing_tests b provider store tests pkey now).1.isOk = true := by
  intro b provider store p docs stories tests pk pkey now
  have hsw : ∀ r : Except (PyErr × Store) Store, (swallow r).isOk = true := by
    intro r; cases r <;> rfl
  refine ⟨?_, ?_, ?_, ?_⟩
  · unfold index_test_plan
    split <;> rfl
  · unfold index_confluence_docs
    split
    · rfl
    · exact hsw _
  · unfold index_jira_stories
    split
    · rfl
    · exact hsw _
  · unfold index_existing_tests
    split
    · rfl
    · exact hsw _

/-- C2: upserting an id that already exists in a collection overwrites the
stored document deterministically and leaves the document count unchanged;
in particular, indexing one ticket twice (its id is the natural key
`jira_{key}`, with no timestamp suffix) leaves the ticket collection at one
document. -/
theorem c2_duplicate_id_overwrites :
    (∀ (c : Collection) (id : String) (d : StoredDoc),
        id ∈ colIds c →
          (colUpsert c id d).length = c.length
          ∧ (colUpsert c id d).lookup id = some d)
    ∧ (∀ (provider : Provider), ProviderExact provider →
        ∀ (story : JiraStoryM) (pk : Option String) (t1 t2 : DateTime)
          (store : Store),
          store JIRA_STORIES_COLLECTION = [] →
          ∃ s1 s2,
            (index_jira_stories okBackend provider store [story] pk t1).1
              = .ok s1
            ∧ (index_jira_stories okBackend provider s1 [story] pk t2).1
              = .ok s2
            ∧ (s2 JIRA_STORIES_COLLECTION).length = 1) := by
  constructor
  · intro c id d h
    exact ⟨colUpsert_length_of_mem c id d h, colUpsert_lookup_self c id d⟩
  · intro provider hp story pk t1 t2 store hs
    obtain ⟨d1, hd1⟩ := indexFold_single provider hp JIRA_STORIES_COLLECTION
      jiraDocText (jiraMeta pk t1) jiraDocId store story
    have h1 := index_jira_stories_okBackend provider store [story] pk t1
      (by simp)
    rw [chunkList_small 1000 [story] (by simp) (by simp)] at h1
    simp only [List.foldl_cons, List.foldl_nil] at h1
    rw [hd1] at h1
    set s1 := storeSet store JIRA_STORIES_COLLECTION
      (colUpsert (store JIRA_STORIES_COLLECTION) (jiraDocId story) d1) with hs1def
    obtain ⟨d2, hd2⟩ := indexFold_single provider hp JIRA_STORIES_COLLECTION
      jiraDocText (jiraMeta pk t2) jiraDocId s1 story
    have h2 := index_jira_stories_okBackend provider s1 [story] pk t2
      (by simp)
    rw [chunkList_small 1000 [story] (by simp) (by simp)] at h2
    simp only [List.foldl_cons, List.foldl_nil] at h2
    rw [hd2] at h2
    refine ⟨s1, _, by rw [h1], by rw [h2], ?_⟩
    have hcol1 : s1 JIRA_STORIES_COLLECTION
        = [(jiraDocId story, d1)] := by
      rw [hs1def, storeSet_self, hs]
      simp [colUpsert]
    rw [storeSet_self, hcol1,
      colUpsert_length_of_mem _ _ _ (by simp [colIds])]
    rfl

/-- C3: `retrieve_for_story` is a total function of the four per-collection
lookups (it never raises for a lookup failure); whichever of the four
lookups' k-NN query throws, the result for that collection alone is the
empty list (first four conjuncts, one per branch); and each collection's
result depends only on the backend's behaviour at that collection — two
backends agreeing on a collection's `get_or_create_collection`, query and
stats yield the same result list for it (last four conjuncts), so a
failure injected into any one branch leaves the other three branches'
results exactly as they were. -/
theorem c3_retrieval_isolation :
    ∀ (b b' : Backend) (provider : Provider) (store : Store)
      (story : JiraStoryM) (pk : Option String) (kT kD kS kE : Nat),
      ((b.queryFails TEST_PLANS_COLLECTION = true →
        (retrieve_for_story b provider store story pk kT kD kS kE).similar_test_plans
          = [])
      ∧ (b.queryFails CONFLUENCE_DOCS_COLLECTION = true →
        (retrieve_for_story b provider store story pk kT kD kS kE).similar_confluence_docs
          = [])
      ∧ (b.queryFails JIRA_STORIES_COLLECTION = true →
        (retrieve_for_story b provider store story pk kT kD kS kE).similar_jira_stories
          = [])
      ∧ (b.queryFails EXISTING_TESTS_COLLECTION = true →
        (retrieve_for_story b provider store story pk kT kD kS kE).similar_existing_tests
          = []))
      ∧ ((b'.getCollFails TEST_PLANS_COLLECTION = b.getCollFails TEST_PLANS_COLLECTION
          ∧ b'.queryFails TEST_PLANS_COLLECTION = b.queryFails TEST_PLANS_COLLECTION
          ∧ b'.statsFails TEST_PLANS_COLLECTION = b.statsFails TEST_PLANS_COLLECTION →
        (retrieve_for_story b' provider store story pk kT kD kS kE).similar_test_plans
          = (retrieve_for_story b provider store story pk kT kD kS kE).similar_test_plans)
      ∧ (b'.getCollFails CONFLUENCE_DOCS_COLLECTION = b.getCollFails CONFLUENCE_DOCS_COLLECTION
          ∧ b'.queryFails CONFLUENCE_DOCS_COLLECTION = b.queryFails CONFLUENCE_DOCS_COLLECTION
          ∧ b'.statsFails CONFLUENCE_DOCS_COLLECTION = b.statsFails CONFLUENCE_DOCS_COLLECTION →
        (retrieve_for_story b' provider store story pk kT kD kS kE).similar_confluence_docs
          = (retrieve_for_story b provider store story pk kT kD kS kE).similar_confluence_docs)
      ∧ (b'.getCollFails JIRA_STORIES_COLLECTION = b.getCollFails JIRA_STORIES_COLLECTION
          ∧ b'.queryFails JIRA_STORIES_COLLECTION = b.queryFails JIRA_STORIES_COLLECTION
          ∧ b'.statsFails JIRA_STORIES_COLLECTION = b.statsFails JIRA_STORIES_COLLECTION →
        (retrieve_for_story b' provider store story pk kT kD kS kE).similar_jira_stories
          = (retrieve_for_story b provider store story pk kT kD kS kE).similar_jira_stories)
      ∧ (b'.getCollFails EXISTING_TESTS_COLLECTION = b.getCollFails EXISTING_TESTS_COLLECTION
          ∧ b'.queryFails EXISTING_TESTS_COLLECTION = b.queryFails EXISTING_TESTS_COLLECTION
          ∧ b'.statsFails EXISTING_TESTS_COLLECTION = b.statsFails EXISTING_TESTS_COLLECTION →
        (retrieve_for_story b' provider store story pk kT kD kS kE).similar_existing_tests
          = (retrieve_for_story b provider store story pk kT kD kS kE).similar_existing_tests)) := by
  have hbr_fail : ∀ (b : Backend) provider store cname q k flt,
      b.queryFails cname = true →
      retrieveBranch b provider store cname q k flt = [] := by
    intro b provider store cname q k flt h
    unfold retrieveBranch retrieve_similar
    split_ifs <;> simp_all
  have hbr_congr : ∀ (b b' : Backend) provider store cname q k flt,
      b'.getCollFails cname = b.getCollFails cname →
      b'.queryFails cname = b.queryFails cname →
      b'.statsFails cname = b.statsFails cname →
      retrieveBranch b' provider store cname q k flt
        = retrieveBranch b provider store cname q k flt := by
    intro b b' provider store cname q k flt h1 h2 h3
    unfold retrieveBranch retrieve_similar get_collection_stats_count
    rw [h1, h2, h3]
  intro b b' provider store story pk kT kD kS kE
  constructor
  · refine ⟨fun h => ?_, fun h => ?_, fun h => ?_, fun h => ?_⟩ <;>
      simp only [retrieve_for_story, gatherIsolate] <;>
      exact hbr_fail b provider store _ _ _ _ h
  · refine ⟨fun h => ?_, fun h => ?_, fun h => ?_, fun h => ?_⟩ <;>
      simp only [retrieve_for_story, gatherIsolate] <;>
      exact hbr_congr b b' provider store _ _ _ _ h.1 h.2.1 h.2.2

/-- C4: for each of the three list-record kinds, indexing N > 1000 records
on the non-failing backend issues exactly `ceil(N/1000)` sequential
`add_documents` calls, each covering at most 1000 records, and afterwards
every generated id is present in the target collection. -/
theorem c4_batching :
    ∀ (provider : Provider), ProviderExact provider →
      ∀ (store : Store) (now : DateTime),
      (∀ (docs : List ConfDocM) (pk : Option String), docs.length > 1000 →
        (index_confluence_docs okBackend provider store docs pk now).2.length
            = (docs.length + 999) / 1000
        ∧ (∀ batch ∈ (index_confluence_docs okBackend provider store docs pk now).2,
            batch.length ≤ 1000)
        ∧ ∃ s, (index_confluence_docs okBackend provider store docs pk now).1
              = .ok s
            ∧ ∀ d ∈ docs,
                confDocId d now ∈ colIds (s CONFLUENCE_DOCS_COLLECTION))
      ∧ (∀ (stories : List JiraStoryM) (pk : Option String),
          stories.length > 1000 →
        (index_jira_stories okBackend provider store stories pk now).2.length
            = (stories.length + 999) / 1000
        ∧ (∀ batch ∈ (index_jira_stories okBackend provider store stories pk now).2,
            batch.length ≤ 1000)
        ∧ ∃ s, (index_jira_stories okBackend provider store stories pk now).1
              = .ok s
            ∧ ∀ r ∈ stories,
                jiraDocId r ∈ colIds (s JIRA_STORIES_COLLECTION))
      ∧ (∀ (tests : List TestRecM) (pkey : String), tests.length > 1000 →
        (index_existing_tests okBackend provider store tests pkey now).2.length
            = (tests.length + 999) / 1000
        ∧ (∀ batch ∈ (index_existing_tests okBackend provider store tests pkey now).2,
            batch.length ≤ 1000)
        ∧ ∃ s, (index_existing_tests okBackend provider store tests pkey now).1
              = .ok s
            ∧ ∀ r ∈ tests,
                testDocId r now ∈ colIds (s EXISTING_TESTS_COLLECTION)) := by
  intro provider hp store now
  refine ⟨?_, ?_, ?_⟩
  · intro docs pk hN
    have hne : docs ≠ [] := by intro h; rw [h] at hN; simp at hN
    have h := index_confluence_docs_okBackend provider store docs pk now hne
    refine ⟨by rw [h]; exact chunkList_1000_length docs,
      by rw [h]; exact chunkList_le 1000 docs, _, by rw [h], ?_⟩
    intro d hd
    have hdm : d ∈ (chunkList 1000 docs).flatten := by
      rw [chunkList_flatten 1000 (by norm_num)]; exact hd
    obtain ⟨c, hc, hdc⟩ := List.mem_flatten.mp hdm
    exact foldl_indexFold_inserts provider hp CONFLUENCE_DOCS_COLLECTION
      confDocText (confMeta pk now) (fun d => confDocId d now) _ store c d hc hdc
  · intro stories pk hN
    have hne : stories ≠ [] := by intro h; rw [h] at hN; simp at hN
    have h := index_jira_stories_okBackend provider store stories pk now hne
    refine ⟨by rw [h]; exact chunkList_1000_length stories,
      by rw [h]; exact chunkList_le 1000 stories, _, by rw [h], ?_⟩
    intro r hr
    have hrm : r ∈ (chunkList 1000 stories).flatten := by
      rw [chunkList_flatten 1000 (by norm_num)]; exact hr
    obtain ⟨c, hc, hrc⟩ := List.mem_flatten.mp hrm
    exact foldl_indexFold_inserts provider hp JIRA_STORIES_COLLECTION
      jiraDocText (jiraMeta pk now) jiraDocId _ store c r hc hrc
  · intro tests pkey hN
    have hne : tests ≠ [] := by intro h; rw [h] at hN; simp at hN
    have h := index_existing_tests_okBackend provider store tests pkey now hne
    refine ⟨by rw [h]; exact chunkList_1000_length tests,
      by rw [h]; exact chunkList_le 1000 tests, _, by rw [h], ?_⟩
    intro r hr
    have hrm : r ∈ (chunkList 1000 tests).flatten := by
      rw [chunkList_flatten 1000 (by norm_num)]; exact hr
    obtain ⟨c, hc, hrc⟩ := List.mem_flatten.mp hrm
    exact foldl_indexFold_inserts provider hp EXISTING_TESTS_COLLECTION
      testDocText (testMeta pkey now) (fun t => testDocId t now) _ store c r hc hrc

/-- C9: the catalog-test document id is `test_{key}_{YYYYMMDD}` at day
granularity: two indexing runs on the same calendar day (regardless of
time of day) produce the same id, runs on different valid days produce
distinct ids, and re-indexing one record therefore keeps one document per
indexing day — count 1 after two same-day runs, count 2 after runs on two
different days. -/
theorem c9_daily_test_ids :
    (∀ (t : TestRecM) (d1 d2 : DateTime),
        d1.sameDay d2 → testDocId t d1 = testDocId t d2)
    ∧ (∀ (t : TestRecM) (d1 d2 : DateTime),
        d1.valid → d2.valid → ¬ d1.sameDay d2 →
        testDocId t d1 ≠ testDocId t d2)
    ∧ (∀ (provider : Provider), ProviderExact provider →
        ∀ (t : TestRecM) (pkey : String) (d1 d2 : DateTime) (store : Store),
          store EXISTING_TESTS_COLLECTION = [] →
          d1.valid → d2.valid →
          ∃ s1 s2,
            (index_existing_tests okBackend provider store [t] pkey d1).1
              = .ok s1
            ∧ (index_existing_tests okBackend provider s1 [t] pkey d2).1
              = .ok s2
            ∧ (s2 EXISTING_TESTS_COLLECTION).length
                = (if d1.sameDay d2 then 1 else 2)) := by
  refine ⟨?_, ?_, ?_⟩
  · intro t d1 d2 h
    unfold testDocId
    rw [fmtYYYYMMDD_sameDay d1 d2 h]
  · intro t d1 d2 hv1 hv2 hnsd heq
    exact hnsd (fmtYYYYMMDD_inj d1 d2 hv1 hv2 (testDocId_date_eq t d1 d2 heq))
  · intro provider hp t pkey d1 d2 store hs hv1 hv2
    obtain ⟨e1, he1⟩ := indexFold_single provider hp EXISTING_TESTS_COLLECTION
      testDocText (testMeta pkey d1) (fun r => testDocId r d1) store t
    have h1 := index_existing_tests_okBackend provider store [t] pkey d1
      (by simp)
    rw [chunkList_small 1000 [t] (by simp) (by simp)] at h1
    simp only [List.foldl_cons, List.foldl_nil] at h1
    rw [he1] at h1
    set s1 := storeSet store EXISTING_TESTS_COLLECTION
      (colUpsert (store EXISTING_TESTS_COLLECTION) (testDocId t d1) e1)
      with hs1def
    obtain ⟨e2, he2⟩ := indexFold_single provider hp EXISTING_TESTS_COLLECTION
      testDocText (testMeta pkey d2) (fun r => testDocId r d2) s1 t
    have h2 := index_existing_tests_okBackend provider s1 [t] pkey d2
      (by simp)
    rw [chunkList_small 1000 [t] (by simp) (by simp)] at h2
    simp only [List.foldl_cons, List.foldl_nil] at h2
    rw [he2] at h2
    refine ⟨s1, _, by rw [h1], by rw [h2], ?_⟩
    have hcol1 : s1 EXISTING_TESTS_COLLECTION = [(testDocId t d1, e1)] := by
      rw [hs1def, storeSet_self, hs]
      simp [colUpsert]
    rw [storeSet_self, hcol1]
    by_cases hsd : d1.sameDay d2
    · rw [if_pos hsd]
      have hid : testDocId t d2 = testDocId t d1 := by
        unfold testDocId
        rw [fmtYYYYMMDD_sameDay d2 d1 ⟨hsd.1.symm, hsd.2.1.symm, hsd.2.2.symm⟩]
      rw [hid, colUpsert_length_of_mem _ _ _ (by simp [colIds])]
      rfl
    · rw [if_neg hsd]
      have hid : testDocId t d2 ≠ testDocId t d1 := by
        intro h
        exact hsd (fmtYYYYMMDD_inj d1 d2 hv1 hv2
          (testDocId_date_eq t d1 d2 h.symm))
      rw [colUpsert_length_of_not_mem _ _ _ (by simp [colIds, hid])]
      rfl

/-- C10: when no explicit partition key is supplied, the indexer's stored
`project_key` metadata value and the retriever's filter value are computed
by the same rule — the prefix of the ticket key before the first `'-'` —
so a ticket indexed without an explicit project key exactly matches the
metadata filter the retriever later builds for the same ticket. -/
theorem c10_partition_key_agreement :
    (∀ key : String, retrieverProjectKey none key = keyPrefix key)
    ∧ (∀ (s : JiraStoryM) (now : DateTime),
        (jiraMeta none now s).lookup "project_key"
          = some (retrieverProjectKey none s.key))
    ∧ (∀ (s : JiraStoryM) (now : DateTime),
        metaMatches [("project_key", retrieverProjectKey none s.key)]
          (jiraMeta none now s) = true)
    ∧ (∀ (a bstr : String), (∀ ch ∈ a.data, ch ≠ '-') →
        keyPrefix (a ++ "-" ++ bstr) = a) := by
  have hlookup : ∀ (s : JiraStoryM) (now : DateTime),
      (jiraMeta none now s).lookup "project_key"
        = some (keyPrefix s.key) := by
    intro s now
    simp [jiraMeta, List.lookup, pyOrStr]
  refine ⟨fun key => rfl, ?_, ?_, ?_⟩
  · intro s now
    rw [hlookup s now]
    rfl
  · intro s now
    simp only [metaMatches, List.all_cons, List.all_nil, Bool.and_true]
    rw [hlookup s now]
    simp [retrieverProjectKey]
  · intro a bstr h
    unfold keyPrefix
    have hdata : (a ++ "-" ++ bstr).data = a.data ++ '-' :: bstr.data := by
      simp [String.data_append]
    rw [hdata]
    have htw : ∀ (xs : List Char), (∀ ch ∈ xs, ch ≠ '-') →
        List.takeWhile (fun c => decide (c ≠ '-')) (xs ++ '-' :: bstr.data)
          = xs := by
      intro xs
      induction xs with
      | nil => intro _; simp
      | cons x xs ih =>
        intro hx
        have hxd : x ≠ '-' := hx x (List.mem_cons_self x xs)
        simp only [List.cons_append, List.takeWhile_cons,
          decide_eq_true_eq]
        rw [if_pos hxd]
        rw [ih (fun c hc => hx c (List.mem_cons_of_mem x hc))]
    rw [htw a.data h]

/-! ## Witnesses -/

/-- Witness for C2 at a concrete ticket indexed twice. -/
theorem c2_witness :
    ProviderExact constProvider
    ∧ emptyStore JIRA_STORIES_COLLECTION = []
    ∧ ∃ s1 s2,
        (index_jira_stories okBackend constProvider emptyStore
          [⟨"PLAT-7", "Add login", none, "Story", "Open", [], none⟩]
          none ⟨2025, 10, 12, 9, 0, 0⟩).1 = .ok s1
        ∧ (index_jira_stories okBackend constProvider s1
          [⟨"PLAT-7", "Add login", none, "Story", "Open", [], none⟩]
          none ⟨2025, 10, 12, 10, 0, 0⟩).1 = .ok s2
        ∧ (s2 JIRA_STORIES_COLLECTION).length = 1 :=
  ⟨constProvider_exact, rfl,
    c2_duplicate_id_overwrites.2 constProvider constProvider_exact
      ⟨"PLAT-7", "Add login", none, "Story", "Open", [], none⟩ none
      ⟨2025, 10, 12, 9, 0, 0⟩ ⟨2025, 10, 12, 10, 0, 0⟩ emptyStore rfl⟩

/-- Witness for C3: the spec's scenario — one document in plan memory, the
documentation query forced to throw — gives `has_context = true`, one
similar plan and zero similar docs; a second instance forces the
jira-stories query to throw instead, and an agreement instance shows the
plan branch's result is untouched by the documentation failure. -/
theorem c3_witness :
    (failBackend CONFLUENCE_DOCS_COLLECTION).queryFails
        CONFLUENCE_DOCS_COLLECTION = true
    ∧ (retrieve_for_story (failBackend CONFLUENCE_DOCS_COLLECTION)
        constProvider scenarioStore scenarioStory
        none 5 10 10 20).similar_confluence_docs = []
    ∧ (failBackend JIRA_STORIES_COLLECTION).queryFails
        JIRA_STORIES_COLLECTION = true
    ∧ (retrieve_for_story (failBackend JIRA_STORIES_COLLECTION)
        constProvider scenarioStore scenarioStory
        none 5 10 10 20).similar_jira_stories = []
    ∧ (okBackend.getCollFails TEST_PLANS_COLLECTION
          = (failBackend CONFLUENCE_DOCS_COLLECTION).getCollFails
              TEST_PLANS_COLLECTION
        ∧ okBackend.queryFails TEST_PLANS_COLLECTION
          = (failBackend CONFLUENCE_DOCS_COLLECTION).queryFails
              TEST_PLANS_COLLECTION
        ∧ okBackend.statsFails TEST_PLANS_COLLECTION
          = (failBackend CONFLUENCE_DOCS_COLLECTION).statsFails
              TEST_PLANS_COLLECTION)
    ∧ (retrieve_for_story okBackend constProvider scenarioStore scenarioStory
        none 5 10 10 20).similar_test_plans
      = (retrieve_for_story (failBackend CONFLUENCE_DOCS_COLLECTION)
          constProvider scenarioStore scenarioStory
          none 5 10 10 20).similar_test_plans
    ∧ (retrieve_for_story (failBackend CONFLUENCE_DOCS_COLLECTION)
        constProvider scenarioStore scenarioStory
        none 5 10 10 20).has_context = true
    ∧ (retrieve_for_story (failBackend CONFLUENCE_DOCS_COLLECTION)
        constProvider scenarioStore scenarioStory
        none 5 10 10 20).similar_test_plans.length = 1
    ∧ (retrieve_for_story (failBackend CONFLUENCE_DOCS_COLLECTION)
        constProvider scenarioStore scenarioStory
        none 5 10 10 20).similar_confluence_docs.length = 0 :=
  ⟨by decide,
   (c3_retrieval_isolation (failBackend CONFLUENCE_DOCS_COLLECTION) okBackend
     constProvider scenarioStore scenarioStory none 5 10 10 20).1.2.1
     (by decide),
   by decide,
   (c3_retrieval_isolation (failBackend JIRA_STORIES_COLLECTION) okBackend
     constProvider scenarioStore scenarioStory none 5 10 10 20).1.2.2.1
     (by decide),
   by decide,
   (c3_retrieval_isolation (failBackend CONFLUENCE_DOCS_COLLECTION) okBackend
     constProvider scenarioStore scenarioStory none 5 10 10 20).2.1
     (by decide),
   by decide, by decide, by decide⟩

/-- Witness for C4 at 1001 records of each kind. -/
theorem c4_witness :
    ProviderExact constProvider
    ∧ (List.replicate 1001 (ConfDocM.mk none none none none none)).length > 1000
    ∧ (List.replicate 1001
        (JiraStoryM.mk "PLAT-7" "s" none "Story" "Open" [] none)).length > 1000
    ∧ (List.replicate 1001
        (TestRecM.mk (some "QA-T1") none none none none none)).length > 1000
    ∧ ((index_confluence_docs okBackend constProvider emptyStore
          (List.replicate 1001 (ConfDocM.mk none none none none none)) none
          ⟨2025, 10, 12, 0, 0, 0⟩).2.length
        = ((List.replicate 1001 (ConfDocM.mk none none none none none)).length
            + 999) / 1000
      ∧ (∀ batch ∈ (index_confluence_docs okBackend constProvider emptyStore
            (List.replicate 1001 (ConfDocM.mk none none none none none)) none
            ⟨2025, 10, 12, 0, 0, 0⟩).2, batch.length ≤ 1000)
      ∧ ∃ s, (index_confluence_docs okBackend constProvider emptyStore
            (List.replicate 1001 (ConfDocM.mk none none none none none)) none
            ⟨2025, 10, 12, 0, 0, 0⟩).1 = .ok s
          ∧ ∀ d ∈ List.replicate 1001 (ConfDocM.mk none none none none none),
              confDocId d ⟨2025, 10, 12, 0, 0, 0⟩
                ∈ colIds (s CONFLUENCE_DOCS_COLLECTION))
    ∧ ((index_jira_stories okBackend constProvider emptyStore
          (List.replicate 1001
            (JiraStoryM.mk "PLAT-7" "s" none "Story" "Open" [] none)) none
          ⟨2025, 10, 12, 0, 0, 0⟩).2.length
        = ((List.replicate 1001
            (JiraStoryM.mk "PLAT-7" "s" none "Story" "Open" [] none)).length
            + 999) / 1000
      ∧ (∀ batch ∈ (index_jira_stories okBackend constProvider emptyStore
            (List.replicate 1001
              (JiraStoryM.mk "PLAT-7" "s" none "Story" "Open" [] none)) none
            ⟨2025, 10, 12, 0, 0, 0⟩).2, batch.length ≤ 1000)
      ∧ ∃ s, (index_jira_stories okBackend constProvider emptyStore
            (List.replicate 1001
              (JiraStoryM.mk "PLAT-7" "s" none "Story" "Open" [] none)) none
            ⟨2025, 10, 12, 0, 0, 0⟩).1 = .ok s
          ∧ ∀ r ∈ List.replicate 1001
              (JiraStoryM.mk "PLAT-7" "s" none "Story" "Open" [] none),
              jiraDocId r ∈ colIds (s JIRA_STORIES_COLLECTION))
    ∧ ((index_existing_tests okBackend constProvider emptyStore
          (List.replicate 1001
            (TestRecM.mk (some "QA-T1") none none none none none)) "PLAT"
          ⟨2025, 10, 12, 0, 0, 0⟩).2.length
        = ((List.replicate 1001
            (TestRecM.mk (some "QA-T1") none none none none none)).length
            + 999) / 1000
      ∧ (∀ batch ∈ (index_existing_tests okBackend constProvider emptyStore
            (List.replicate 1001
              (TestRecM.mk (some "QA-T1") none none none none none)) "PLAT"
            ⟨2025, 10, 12, 0, 0, 0⟩).2, batch.length ≤ 1000)
      ∧ ∃ s, (index_existing_tests okBackend constProvider emptyStore
            (List.replicate 1001
              (TestRecM.mk (some "QA-T1") none none none none none)) "PLAT"
            ⟨2025, 10, 12, 0, 0, 0⟩).1 = .ok s
          ∧ ∀ r ∈ List.replicate 1001
              (TestRecM.mk (some "QA-T1") none none none none none),
              testDocId r ⟨2025, 10, 12, 0, 0, 0⟩
                ∈ colIds (s EXISTING_TESTS_COLLECTION)) :=
  ⟨constProvider_exact,
   by rw [List.length_replicate]; omega,
   by rw [List.length_replicate]; omega,
   by rw [List.length_replicate]; omega,
   (c4_batching constProvider constProvider_exact emptyStore
     ⟨2025, 10, 12, 0, 0, 0⟩).1 _ none (by rw [List.length_replicate]; omega),
   (c4_batching constProvider constProvider_exact emptyStore
     ⟨2025, 10, 12, 0, 0, 0⟩).2.1 _ none (by rw [List.length_replicate]; omega),
   (c4_batching constProvider constProvider_exact emptyStore
     ⟨2025, 10, 12, 0, 0, 0⟩).2.2 _ "PLAT" (by rw [List.length_replicate]; omega)⟩

/-- Witness for C6 at a concrete two-text input. -/
theorem c6_witness :
    ProviderExact constProvider
    ∧ (embed_texts constProvider ["a", "b"]).length = 2
    ∧ ["a", "b"] ∈ embed_texts_calls ["a", "b"]
    ∧ (["a", "b"] : List String).length ≤ 100 := by
  have hmem : ["a", "b"] ∈ embed_texts_calls ["a", "b"] := by
    unfold embed_texts_calls
    rw [if_neg (by decide), chunkList_small 100 _ (by decide) (by decide)]
    exact List.mem_singleton.mpr rfl
  exact ⟨constProvider_exact,
    c6_embed_texts_shape.2.1 constProvider constProvider_exact ["a", "b"],
    hmem,
    c6_embed_texts_shape.2.2.2.1 ["a", "b"] ["a", "b"] hmem⟩

/-- Witness for C7 on an empty collection and on a backend whose query
raises. -/
theorem c7_witness :
    emptyStore "test_plans" = []
    ∧ retrieve_similar okBackend constProvider emptyStore "test_plans" "q" 5
        none = []
    ∧ (Backend.mk (fun _ => false) (fun _ => false) (fun _ => true)
        (fun _ => false)).queryFails "test_plans" = true
    ∧ retrieve_similar
        (Backend.mk (fun _ => false) (fun _ => false) (fun _ => true)
          (fun _ => false))
        constProvider emptyStore "test_plans" "q" 5 none = [] :=
  ⟨rfl,
   (c7_retrieve_similar_safe okBackend constProvider emptyStore "test_plans"
     "q" 5 none).1 rfl,
   rfl,
   (c7_retrieve_similar_safe _ constProvider emptyStore "test_plans"
     "q" 5 none).2.2 rfl⟩

/-- Witness for C9 at a concrete catalog record indexed on two consecutive
days. -/
theorem c9_witness :
    ProviderExact constProvider
    ∧ emptyStore EXISTING_TESTS_COLLECTION = []
    ∧ DateTime.valid ⟨2025, 10, 12, 8, 0, 0⟩
    ∧ DateTime.valid ⟨2025, 10, 13, 8, 0, 0⟩
    ∧ ∃ s1 s2,
        (index_existing_tests okBackend constProvider emptyStore
          [⟨some "QA-T1", some "Login test", none, none, none, none⟩] "PLAT"
          ⟨2025, 10, 12, 8, 0, 0⟩).1 = .ok s1
        ∧ (index_existing_tests okBackend constProvider s1
          [⟨some "QA-T1", some "Login test", none, none, none, none⟩] "PLAT"
          ⟨2025, 10, 13, 8, 0, 0⟩).1 = .ok s2
        ∧ (s2 EXISTING_TESTS_COLLECTION).length
            = (if DateTime.sameDay ⟨2025, 10, 12, 8, 0, 0⟩
                  ⟨2025, 10, 13, 8, 0, 0⟩ then 1 else 2) :=
  ⟨constProvider_exact, rfl, by decide, by decide,
   c9_daily_test_ids.2.2 constProvider constProvider_exact
     ⟨some "QA-T1", some "Login test", none, none, none, none⟩ "PLAT"
     ⟨2025, 10, 12, 8, 0, 0⟩ ⟨2025, 10, 13, 8, 0, 0⟩ emptyStore rfl
     (by decide) (by decide)⟩

/-- Witness for C10 at a concrete ticket key with one hyphen. -/
theorem c10_witness :
    (∀ ch ∈ ("PLAT" : String).data, ch ≠ '-')
    ∧ keyPrefix ("PLAT" ++ "-" ++ "123") = "PLAT"
    ∧ (jiraMeta none ⟨2025, 10, 12, 0, 0, 0⟩
        ⟨"PLAT-9", "s", none, "Story", "Open", [], none⟩).lookup "project_key"
        = some (retrieverProjectKey none "PLAT-9") :=
  ⟨by decide,
   c10_partition_key_agreement.2.2.2 "PLAT" "123" (by decide),
   c10_partition_key_agreement.2.1
     ⟨"PLAT-9", "s", none, "Story", "Open", [], none⟩ ⟨2025, 10, 12, 0, 0, 0⟩⟩

end Womba
